import Mathlib

/-!
Shallow embedding of the VM decommissioning workflow of
`command/harness/destroy.go` (drone-runner-aws): the cleanup coordinator
`handleDestroy` (one destroy attempt) and the retry driver `HandleDestroy`
(bounded-backoff loop), together with the collaborator calls they make,
modelled as an explicit event trace.

External collaborators (stage-owner store, pool manager, lite-engine client,
metrics sink, stage state registry) are modelled as per-attempt behaviours:
the data an attempt would receive from each call. Every call the Go code
makes is recorded as an `Event`, so frame conditions ("no registry call
happens", "termination is invoked exactly once") are statements about the
trace.
-/

namespace DestroyGo

/-- A Go `context.Context` value, as far as this code can distinguish them:
either the fresh `context.Background()` or some caller-supplied context. -/
inductive GoContext where
  | background : GoContext
  | caller (id : Nat) : GoContext
  deriving DecidableEq, Repr

/-- `types.VMCleanupRequest` from `destroy.go` (the `Context` field is an
opaque logging context, modelled by a number). -/
structure VMCleanupRequest where
  poolID : String
  stageRuntimeID : String
  logKey : String
  logContext : Nat
  deriving DecidableEq, Repr

/-- The fields of `types.StageOwner` read by `destroy.go`. -/
structure StageOwnerEntity where
  stageID : String
  poolName : String
  deriving DecidableEq, Repr

/-- The fields of `types.Instance` read by `destroy.go`. -/
structure Instance where
  id : String
  name : String
  os : String
  arch : String
  provider : String
  port : Int
  deriving DecidableEq, Repr

/-- The fields of lite-engine `api.OSStats` used by `destroy.go`.
Float64 fields are modelled by rationals; the code only compares and
forwards them, never does float arithmetic. -/
structure OSStats where
  totalMemMB : Rat
  cpuCores : Int
  avgMemUsagePct : Rat
  avgCPUUsagePct : Rat
  maxMemUsagePct : Rat
  maxCPUUsagePct : Rat
  deriving DecidableEq, Repr

/-- Lite-engine `api.DestroyResponse`: may or may not carry OS stats. -/
structure DestroyResponse where
  osStats : Option OSStats
  deriving DecidableEq, Repr

/-- Behaviour of a constructed lite-engine client on its `Destroy` call:
Go returns a response pointer and an error, each independently nilable
(`destroy.go` reads `resp` even when `destroyErr != nil`). -/
structure ClientBehavior where
  destroyResp : Option DestroyResponse
  destroyErr : Option String
  deriving DecidableEq, Repr

/-- Go pair `(client, err)` returned by `lehelper.GetClient`: a
construction error or a usable client. -/
inductive ClientResult where
  | error (msg : String) : ClientResult
  | ok (c : ClientBehavior) : ClientResult
  deriving DecidableEq, Repr

/-- The fields of `config.EnvConfig` read by `destroy.go`
(`env.Runner.Name`, `env.LiteEngine.EnableMock`,
`env.LiteEngine.MockStepTimeoutSecs`). -/
structure EnvConfig where
  runnerName : String
  enableMock : Bool
  mockStepTimeoutSecs : Int
  deriving DecidableEq, Repr

/-- What the external collaborators answer during one destroy attempt.
Pairs of `Option` mirror Go multi-value returns `(value, err)`, each
independently nilable. -/
structure AttemptEnv where
  /-- `s.Find(ctx, stageRuntimeID)` entity result. -/
  findEntity : Option StageOwnerEntity
  /-- `s.Find(ctx, stageRuntimeID)` error result. -/
  findErr : Option String
  /-- `poolManager.GetInstanceByStageID(ctx, poolID, stageRuntimeID)` instance result. -/
  inst : Option Instance
  /-- `poolManager.GetInstanceByStageID` error result. -/
  instErr : Option String
  /-- `lehelper.GetClient(...)`: either a construction error or a client. -/
  getClient : ClientResult
  /-- `poolManager.Destroy(ctx, poolID, instanceID)` error result (`none` = success). -/
  poolDestroyErr : Option String
  /-- `s.Delete(ctx, stageRuntimeID)` error result (`none` = success). -/
  ownerDeleteErr : Option String
  deriving DecidableEq, Repr

/-- Errors produced by this workflow: the `BadRequest` validation error of
`ierrors.NewBadRequestError` versus ordinary (wrapped) internal errors. -/
inductive GoError where
  | badRequest (msg : String) : GoError
  | internal (msg : String) : GoError
  deriving DecidableEq, Repr

/-- `errors.Wrap` from `github.com/pkg/errors`: wrapping a nil error
RETURNS NIL, wrapping a non-nil error prepends the message. -/
def errorsWrap (err : Option String) (msg : String) : Option GoError :=
  match err with
  | none => none
  | some e => some (GoError.internal (msg ++ ": " ++ e))

/-- Modelled from the spec: `oshelp.GetLiteEngineLogsPath` is not under
`src/`; the spec only says the in-guest cleanup call passes "a
guest-OS-specific log path", so we model it as a fixed injective-in-OS
function of the guest OS string. -/
def getLiteEngineLogsPath (os : String) : String :=
  "lite-engine-log-path-" ++ os

/-- The Threshold Classifier: the nested `>= 50 / >= 70 / >= 90`
comparisons at lines 104-122 of `destroy.go`, applied to one percentage.
Returns `(ge50, ge70, ge90)`. -/
def classifyThresholds (pct : Rat) : Bool × Bool × Bool :=
  if pct ≥ 50 then
    if pct ≥ 70 then
      if pct ≥ 90 then (true, true, true)
      else (true, true, false)
    else (true, false, false)
  else (false, false, false)

/-- One observable collaborator call made by a destroy attempt. -/
inductive Event where
  /-- `s.Find(ctx, stageRuntimeID)`. -/
  | findCalled (ctx : GoContext) (stageID : String) : Event
  /-- `poolManager.GetInstanceByStageID(ctx, poolID, stageRuntimeID)`. -/
  | getInstanceCalled (ctx : GoContext) (poolID stageID : String) : Event
  /-- `lehelper.GetClient(inst, runnerName, inst.Port, ...)`. -/
  | getClientCalled (instID : String) (runnerName : String) (port : Int) : Event
  /-- `client.Destroy(ctx, &api.DestroyRequest\x7bLogDrone, LogKey, LiteEnginePath\x7d)`. -/
  | clientDestroyCalled (ctx : GoContext) (logDrone : Bool) (logKey : String)
      (liteEnginePath : String) : Event
  /-- `metrics.CPUPercentile.WithLabelValues(pool, os, arch, provider).Observe(v)`. -/
  | observeCPU (poolID os arch provider : String) (value : Rat) : Event
  /-- `metrics.MemoryPercentile.WithLabelValues(pool, os, arch, provider).Observe(v)`. -/
  | observeMem (poolID os arch provider : String) (value : Rat) : Event
  /-- The structured-log line carrying the six threshold flags. -/
  | statsLog (cpuFlags memFlags : Bool × Bool × Bool) : Event
  /-- `poolManager.Destroy(ctx, poolID, instanceID)`. -/
  | poolDestroyCalled (ctx : GoContext) (poolID instID : String) : Event
  /-- `envState().Delete(stageRuntimeID)` (Stage State Registry retirement). -/
  | registryDelete (stageID : String) : Event
  /-- `s.Delete(ctx, stageRuntimeID)` (StageOwnershipRecord deletion). -/
  | ownerDeleteCalled (ctx : GoContext) (stageID : String) : Event
  deriving DecidableEq, Repr

/-- Events of the best-effort in-guest cleanup block (lines 91-132 of
`destroy.go`), given the `GetClient` outcome. On a construction error the
block is skipped (the error is logged only); otherwise the client
`Destroy` call happens on `context.Background()`, and when the response
and its `OSStats` are both non-nil the two percentile metrics are
observed and the six threshold flags are logged - even when the call also
returned an error alongside the response. -/
def guestEvents (gc : ClientResult) (logKey poolID : String) (inst : Instance) : List Event :=
  match gc with
  | ClientResult.error _ => []
  | ClientResult.ok c =>
      [Event.clientDestroyCalled GoContext.background false logKey
        (getLiteEngineLogsPath inst.os)] ++
      (match c.destroyResp with
       | none => []
       | some resp =>
           match resp.osStats with
           | none => []
           | some st =>
               [Event.observeCPU poolID inst.os inst.arch inst.provider st.maxCPUUsagePct,
                Event.observeMem poolID inst.os inst.arch inst.provider st.maxMemUsagePct,
                Event.statsLog (classifyThresholds st.maxCPUUsagePct)
                  (classifyThresholds st.maxMemUsagePct)])

/-- Result of one destroy attempt: the Go pair `(*types.Instance, error)`
plus the trace of collaborator calls it made. -/
structure AttemptResult where
  inst : Option Instance
  err : Option GoError
  events : List Event
  deriving DecidableEq, Repr

/-- One destroy attempt: Go `handleDestroy` (lines 60-148 of `destroy.go`),
with every collaborator call recorded in the trace. `retryCount` is only
used for logging in the source and is carried here for signature fidelity. -/
def handleDestroy (ctx : GoContext) (r : VMCleanupRequest) (env : EnvConfig)
    (a : AttemptEnv) (_retryCount : Nat) : AttemptResult :=
  let evFind := [Event.findCalled ctx r.stageRuntimeID]
  let findMsg := "failed to find stage owner entity for stage: " ++ r.stageRuntimeID
  match a.findEntity, a.findErr with
  | none, fe =>
      -- `if err != nil || entity == nil`: entity nil, any err: errors.Wrap(err, msg)
      { inst := none, err := errorsWrap fe findMsg, events := evFind }
  | some _, some e =>
      -- entity non-nil but err non-nil: errors.Wrap(err, msg)
      { inst := none, err := errorsWrap (some e) findMsg, events := evFind }
  | some entity, none =>
      let poolID := entity.poolName
      let evInst := evFind ++ [Event.getInstanceCalled ctx poolID r.stageRuntimeID]
      match a.instErr with
      | some e =>
          { inst := none,
            err := some (GoError.internal ("cannot get the instance by tag: " ++ e)),
            events := evInst }
      | none =>
          match a.inst with
          | none =>
              { inst := none,
                err := some (GoError.internal
                  ("instance with stage runtime ID " ++ r.stageRuntimeID ++ " not found")),
                events := evInst }
          | some inst =>
              let evClient := evInst ++ [Event.getClientCalled inst.id env.runnerName inst.port]
              let evDestroy := evClient ++ guestEvents a.getClient r.logKey poolID inst ++
                [Event.poolDestroyCalled ctx poolID inst.id]
              match a.poolDestroyErr with
              | some e =>
                  { inst := none,
                    err := some (GoError.internal ("cannot destroy the instance: " ++ e)),
                    events := evDestroy }
              | none =>
                  let evFinal := evDestroy ++
                    [Event.registryDelete r.stageRuntimeID,
                     Event.ownerDeleteCalled ctx r.stageRuntimeID]
                  { inst := some inst, err := none, events := evFinal }

/-- Per-attempt view of the outside world for the retry loop:
the collaborator behaviour each attempt sees (the world can change
between attempts - that is why the retry exists) and the backoff policy
`b.NextBackOff()` as a sequence: `none` models `backoff.Stop`, `some d`
a wait duration `d`. -/
structure DestroyWorld where
  envAt : Nat → AttemptEnv
  backoffAt : Nat → Option Nat

/-- One observable step of the retry driver loop. -/
inductive LoopEvent where
  /-- One call of `handleDestroy` with retry counter `cnt`: its
  collaborator trace and its error result. -/
  | attemptRun (cnt : Nat) (events : List Event) (err : Option GoError) : LoopEvent
  /-- `time.Sleep(duration)` between failed attempts. -/
  | sleepWait (duration : Nat) : LoopEvent
  deriving DecidableEq, Repr

/-- The retry loop body of Go `HandleDestroy` (lines 41-57 of `destroy.go`),
with explicit fuel (the Go loop is unbounded; `none` = fuel exhausted
before the loop returned). Each iteration first asks the backoff policy
for the next duration, then runs one attempt; on failure it returns the
error if the policy said stop, else sleeps and retries with `cnt+1`. -/
def handleDestroyLoop (ctx : GoContext) (r : VMCleanupRequest) (env : EnvConfig)
    (w : DestroyWorld) : Nat → Nat → Option (Option GoError × List LoopEvent)
  | 0, _ => none
  | Nat.succ fuel, cnt =>
      let duration := w.backoffAt cnt
      let res := handleDestroy ctx r env (w.envAt cnt) cnt
      match res.err with
      | none => some (none, [LoopEvent.attemptRun cnt res.events none])
      | some e =>
          match duration with
          | none => some (some e, [LoopEvent.attemptRun cnt res.events (some e)])
          | some d =>
              match handleDestroyLoop ctx r env w fuel (cnt + 1) with
              | none => none
              | some (resErr, rest) =>
                  some (resErr,
                    LoopEvent.attemptRun cnt res.events (some e) ::
                      LoopEvent.sleepWait d :: rest)

/-- Go `HandleDestroy` (lines 34-58 of `destroy.go`): validation, then the
bounded-backoff retry loop around `handleDestroy`. Returns the Go error
result together with the loop trace (`none` = fuel exhausted). -/
def HandleDestroy (fuel : Nat) (ctx : GoContext) (r : VMCleanupRequest)
    (env : EnvConfig) (w : DestroyWorld) : Option (Option GoError × List LoopEvent) :=
  if r.stageRuntimeID = "" then
    some (some (GoError.badRequest
      "mandatory field stage_runtime_id in the request body is empty"), [])
  else
    handleDestroyLoop ctx r env w fuel 0

/-- Is this event a `poolManager.Destroy` call? -/
def isPoolDestroy : Event → Bool
  | Event.poolDestroyCalled _ _ _ => true
  | _ => false

/-- Is this event a CPU-percentile metric observation? -/
def isObserveCPU : Event → Bool
  | Event.observeCPU _ _ _ _ _ => true
  | _ => false

/-- Is this event a memory-percentile metric observation? -/
def isObserveMem : Event → Bool
  | Event.observeMem _ _ _ _ _ => true
  | _ => false

/-- Is this event a `client.Destroy` (in-guest cleanup) call? -/
def isClientDestroy : Event → Bool
  | Event.clientDestroyCalled _ _ _ _ => true
  | _ => false

/-- Is this event a Stage State Registry deletion? -/
def isRegistryDelete : Event → Bool
  | Event.registryDelete _ => true
  | _ => false

/-- Is this event a StageOwnershipRecord deletion? -/
def isOwnerDelete : Event → Bool
  | Event.ownerDeleteCalled _ _ => true
  | _ => false

/-- Is this loop event a coordinator attempt? -/
def isAttemptRun : LoopEvent → Bool
  | LoopEvent.attemptRun _ _ _ => true
  | _ => false

/-- Is this loop event an inter-attempt sleep? -/
def isSleepWait : LoopEvent → Bool
  | LoopEvent.sleepWait _ => true
  | _ => false

/-! ### Concrete fixtures used by witnesses and counterexamples -/

/-- A sample runner configuration. -/
def sampleEnvCfg : EnvConfig :=
  { runnerName := "drone-runner", enableMock := false, mockStepTimeoutSecs := 0 }

/-- A sample cleanup request. -/
def sampleReq : VMCleanupRequest :=
  { poolID := "req-pool", stageRuntimeID := "stage-1", logKey := "log-key-1", logContext := 0 }

/-- A sample stage-ownership record for `sampleReq`. -/
def sampleEntity : StageOwnerEntity :=
  { stageID := "stage-1", poolName := "pool-a" }

/-- A sample resolved instance. -/
def sampleInstance : Instance :=
  { id := "i-123", name := "vm-123", os := "linux", arch := "amd64",
    provider := "amazon", port := 9079 }

/-- Sample execution statistics. -/
def sampleStats : OSStats :=
  { totalMemMB := 1024, cpuCores := 2, avgMemUsagePct := 10, avgCPUUsagePct := 20,
    maxMemUsagePct := 60, maxCPUUsagePct := 95 }

/-- Attempt environment in which the stage-owner store Find returns
`(nil, nil)`: no record and no error. -/
def attFindNilNil : AttemptEnv :=
  { findEntity := none, findErr := none, inst := none, instErr := none,
    getClient := ClientResult.error "unused", poolDestroyErr := none,
    ownerDeleteErr := none }

/-- World in which every attempt sees `attFindNilNil` and the backoff
policy never stops. -/
def worldFindNilNil : DestroyWorld :=
  { envAt := fun _ => attFindNilNil, backoffAt := fun _ => some 1 }

/-- A fully resolvable attempt environment: record and instance found,
client constructed, its destroy call returns stats and no error,
termination and record deletion succeed. -/
def attHappy : AttemptEnv :=
  { findEntity := some sampleEntity, findErr := none, inst := some sampleInstance,
    instErr := none,
    getClient := ClientResult.ok { destroyResp := some { osStats := some sampleStats },
                                   destroyErr := none },
    poolDestroyErr := none, ownerDeleteErr := none }

/-! ### Threshold classifier -/

/-- Each tier of the classifier is exactly the inclusive comparison
against its threshold. -/
theorem classifyThresholds_eq (pct : Rat) :
    classifyThresholds pct =
      (decide (pct ≥ 50), decide (pct ≥ 70), decide (pct ≥ 90)) := by
  unfold classifyThresholds
  split_ifs with h1 h2 h3
  · simp [h1, h2, h3]
  · simp [h1, h2, h3]
  · have h3 : ¬ pct ≥ 90 := fun h => h2 (le_trans (by norm_num) h)
    simp [h1, h2, h3]
  · have h2 : ¬ pct ≥ 70 := fun h => h1 (le_trans (by norm_num) h)
    have h3 : ¬ pct ≥ 90 := fun h => h1 (le_trans (by norm_num) h)
    simp [h1, h2, h3]

/-- C7: the threshold classification uses inclusive `>=` comparison at
each of the 50/70/90 tiers, is monotonic (`ge90 → ge70 → ge50`), and on
the concrete inputs 95, 60, 20, 50, 70, 90 produces the tuples the spec
lists. -/
theorem C7_classifyThresholds_spec (pct : Rat) :
    classifyThresholds pct =
      (decide (pct ≥ 50), decide (pct ≥ 70), decide (pct ≥ 90)) ∧
    ((classifyThresholds pct).2.2 = true → (classifyThresholds pct).2.1 = true) ∧
    ((classifyThresholds pct).2.1 = true → (classifyThresholds pct).1 = true) ∧
    classifyThresholds 95 = (true, true, true) ∧
    classifyThresholds 60 = (true, false, false) ∧
    classifyThresholds 20 = (false, false, false) ∧
    classifyThresholds 50 = (true, false, false) ∧
    classifyThresholds 70 = (true, true, false) ∧
    classifyThresholds 90 = (true, true, true) := by
  refine ⟨classifyThresholds_eq pct, ?_, ?_, by decide, by decide, by decide,
    by decide, by decide, by decide⟩
  · rw [classifyThresholds_eq pct]
    simp only [decide_eq_true_eq]
    intro h
    exact le_trans (by norm_num) h
  · rw [classifyThresholds_eq pct]
    simp only [decide_eq_true_eq]
    intro h
    exact le_trans (by norm_num) h

/-- Witness for C7 at the concrete input 95. -/
theorem C7_classifyThresholds_spec_witness :
    classifyThresholds 95 =
      (decide ((95 : Rat) ≥ 50), decide ((95 : Rat) ≥ 70), decide ((95 : Rat) ≥ 90)) :=
  (C7_classifyThresholds_spec 95).1

/-! ### Shape of a resolved attempt -/

/-- When ownership and instance both resolve and termination fails, the
attempt returns the wrapped termination error and its trace ends at the
`poolManager.Destroy` call: no bookkeeping events. -/
theorem handleDestroy_resolved_fail (ctx : GoContext) (r : VMCleanupRequest)
    (env : EnvConfig) (a : AttemptEnv) (rc : Nat) (entity : StageOwnerEntity)
    (inst : Instance) (e : String)
    (hfe : a.findEntity = some entity) (hferr : a.findErr = none)
    (hierr : a.instErr = none) (hinst : a.inst = some inst)
    (hpd : a.poolDestroyErr = some e) :
    handleDestroy ctx r env a rc =
      { inst := none,
        err := some (GoError.internal ("cannot destroy the instance: " ++ e)),
        events :=
          [Event.findCalled ctx r.stageRuntimeID,
           Event.getInstanceCalled ctx entity.poolName r.stageRuntimeID,
           Event.getClientCalled inst.id env.runnerName inst.port] ++
          guestEvents a.getClient r.logKey entity.poolName inst ++
          [Event.poolDestroyCalled ctx entity.poolName inst.id] } := by
  obtain ⟨fe, ferr, i0, ierr, gc, pd, od⟩ := a
  dsimp only at hfe hferr hierr hinst hpd
  subst hfe; subst hferr; subst hierr; subst hinst; subst hpd
  rfl

/-- When ownership and instance both resolve and termination succeeds, the
attempt returns the instance with no error and its trace ends with the
Stage State Registry deletion followed by the StageOwnershipRecord
deletion - for every outcome of the record deletion. -/
theorem handleDestroy_resolved_ok (ctx : GoContext) (r : VMCleanupRequest)
    (env : EnvConfig) (a : AttemptEnv) (rc : Nat) (entity : StageOwnerEntity)
    (inst : Instance)
    (hfe : a.findEntity = some entity) (hferr : a.findErr = none)
    (hierr : a.instErr = none) (hinst : a.inst = some inst)
    (hpd : a.poolDestroyErr = none) :
    handleDestroy ctx r env a rc =
      { inst := some inst, err := none,
        events :=
          [Event.findCalled ctx r.stageRuntimeID,
           Event.getInstanceCalled ctx entity.poolName r.stageRuntimeID,
           Event.getClientCalled inst.id env.runnerName inst.port] ++
          guestEvents a.getClient r.logKey entity.poolName inst ++
          [Event.poolDestroyCalled ctx entity.poolName inst.id] ++
          [Event.registryDelete r.stageRuntimeID,
           Event.ownerDeleteCalled ctx r.stageRuntimeID] } := by
  obtain ⟨fe, ferr, i0, ierr, gc, pd, od⟩ := a
  dsimp only at hfe hferr hierr hinst hpd
  subst hfe; subst hferr; subst hierr; subst hinst; subst hpd
  rfl

/-! ### Counting collaborator calls inside the guest-cleanup block -/

/-- The guest-cleanup block never calls `poolManager.Destroy`. -/
theorem guestEvents_countP_poolDestroy (gc : ClientResult) (lk pid : String)
    (inst : Instance) : (guestEvents gc lk pid inst).countP isPoolDestroy = 0 := by
  rcases gc with m | ⟨dr, de⟩
  · rfl
  · rcases dr with _ | ⟨os⟩
    · rfl
    · rcases os with _ | st <;> rfl

/-- The guest-cleanup block never deletes from the Stage State Registry. -/
theorem guestEvents_countP_registryDelete (gc : ClientResult) (lk pid : String)
    (inst : Instance) : (guestEvents gc lk pid inst).countP isRegistryDelete = 0 := by
  rcases gc with m | ⟨dr, de⟩
  · rfl
  · rcases dr with _ | ⟨os⟩
    · rfl
    · rcases os with _ | st <;> rfl

/-- The guest-cleanup block never deletes the StageOwnershipRecord. -/
theorem guestEvents_countP_ownerDelete (gc : ClientResult) (lk pid : String)
    (inst : Instance) : (guestEvents gc lk pid inst).countP isOwnerDelete = 0 := by
  rcases gc with m | ⟨dr, de⟩
  · rfl
  · rcases dr with _ | ⟨os⟩
    · rfl
    · rcases os with _ | st <;> rfl

/-! ### Validation -/

/-- C5: a request with empty `stageRuntimeID` makes `HandleDestroy` return
the `BadRequest` validation error immediately, with an empty loop trace:
no attempt, no sleep, and hence no store, pool-manager, client, metrics or
registry call ever happens, for every fuel, context, configuration and
world. -/
theorem C5_HandleDestroy_empty_stage_id (fuel : Nat) (ctx : GoContext)
    (p lk : String) (lc : Nat) (env : EnvConfig) (w : DestroyWorld) :
    HandleDestroy fuel ctx
        { poolID := p, stageRuntimeID := "", logKey := lk, logContext := lc } env w =
      some (some (GoError.badRequest
        "mandatory field stage_runtime_id in the request body is empty"), []) := rfl

/-! ### The Find nil-entity / nil-error case -/

/-- C1 (code bug): when the stage-owner store Find returns no record AND
a nil error, `errors.Wrap(nil, msg)` is nil, so the attempt returns
`(nil, nil)`: NO error, no instance, no termination call - and the outer
`HandleDestroy` loop treats this as overall success. This contradicts the
claim that the attempt always fails with a non-nil wrapped error when the
lookup returns no record. -/
theorem C1_find_nil_nil_silent_success :
    (handleDestroy (GoContext.caller 0) sampleReq sampleEnvCfg attFindNilNil 0).err = none ∧
    (handleDestroy (GoContext.caller 0) sampleReq sampleEnvCfg attFindNilNil 0).inst = none ∧
    (handleDestroy (GoContext.caller 0) sampleReq sampleEnvCfg
        attFindNilNil 0).events.countP isPoolDestroy = 0 ∧
    HandleDestroy 1 (GoContext.caller 0) sampleReq sampleEnvCfg worldFindNilNil =
      some (none, [LoopEvent.attemptRun 0
        [Event.findCalled (GoContext.caller 0) "stage-1"] none]) :=
  ⟨rfl, rfl, rfl, rfl⟩

/-- Like `attHappy` but the constructed client always errors on destroy
and returns no response. -/
def attGuestErr : AttemptEnv :=
  { attHappy with
    getClient := ClientResult.ok { destroyResp := none, destroyErr := some "guest boom" } }

/-- Like `attHappy` but deleting the StageOwnershipRecord fails. -/
def attOwnerDelErr : AttemptEnv :=
  { attHappy with ownerDeleteErr := some "record store down" }

/-- Like `attHappy` but `poolManager.Destroy` (termination) fails. -/
def attDestroyFail : AttemptEnv :=
  { attHappy with poolDestroyErr := some "cloud api error" }

/-! ### Termination is reached regardless of guest-cleanup outcome -/

/-- C2: whenever ownership and instance resolve, the attempt calls
`poolManager.Destroy` exactly once, with the resolved pool name and
instance id - for EVERY guest-cleanup behaviour (client construction
error, destroy-call error, any response) - and if that termination
succeeds the attempt succeeds, returning the instance. -/
theorem C2_termination_despite_guest_failure (ctx : GoContext)
    (r : VMCleanupRequest) (env : EnvConfig) (a : AttemptEnv) (rc : Nat)
    (entity : StageOwnerEntity) (inst : Instance)
    (hfe : a.findEntity = some entity) (hferr : a.findErr = none)
    (hierr : a.instErr = none) (hinst : a.inst = some inst) :
    (handleDestroy ctx r env a rc).events.countP isPoolDestroy = 1 ∧
    Event.poolDestroyCalled ctx entity.poolName inst.id ∈
      (handleDestroy ctx r env a rc).events ∧
    (a.poolDestroyErr = none →
      (handleDestroy ctx r env a rc).err = none ∧
      (handleDestroy ctx r env a rc).inst = some inst) := by
  rcases hpd : a.poolDestroyErr with _ | e
  · rw [handleDestroy_resolved_ok ctx r env a rc entity inst hfe hferr hierr hinst hpd]
    refine ⟨?_, ?_, fun _ => ⟨rfl, rfl⟩⟩
    · simp [List.countP_append, List.countP_cons, isPoolDestroy,
        guestEvents_countP_poolDestroy]
    · simp
  · rw [handleDestroy_resolved_fail ctx r env a rc entity inst e hfe hferr hierr hinst hpd]
    refine ⟨?_, ?_, fun h => Option.noConfusion h⟩
    · simp [List.countP_append, List.countP_cons, isPoolDestroy,
        guestEvents_countP_poolDestroy]
    · simp

/-- Witness for C2: a client whose destroy call always errors still leads
to exactly one termination call and a successful attempt. -/
theorem C2_termination_despite_guest_failure_witness :
    (handleDestroy (GoContext.caller 0) sampleReq sampleEnvCfg attGuestErr 0).events.countP
        isPoolDestroy = 1 ∧
    Event.poolDestroyCalled (GoContext.caller 0) sampleEntity.poolName sampleInstance.id ∈
      (handleDestroy (GoContext.caller 0) sampleReq sampleEnvCfg attGuestErr 0).events ∧
    (attGuestErr.poolDestroyErr = none →
      (handleDestroy (GoContext.caller 0) sampleReq sampleEnvCfg attGuestErr 0).err = none ∧
      (handleDestroy (GoContext.caller 0) sampleReq sampleEnvCfg attGuestErr 0).inst =
        some sampleInstance) :=
  C2_termination_despite_guest_failure (GoContext.caller 0) sampleReq sampleEnvCfg
    attGuestErr 0 sampleEntity sampleInstance rfl rfl rfl rfl

/-! ### Termination failure aborts the attempt before bookkeeping -/

/-- C3: if `poolManager.Destroy` errors, the attempt returns the wrapped
termination error (surfaced to the retry driver) and performs neither the
Stage State Registry deletion nor the StageOwnershipRecord deletion. -/
theorem C3_termination_error_aborts (ctx : GoContext) (r : VMCleanupRequest)
    (env : EnvConfig) (a : AttemptEnv) (rc : Nat) (entity : StageOwnerEntity)
    (inst : Instance) (e : String)
    (hfe : a.findEntity = some entity) (hferr : a.findErr = none)
    (hierr : a.instErr = none) (hinst : a.inst = some inst)
    (hpd : a.poolDestroyErr = some e) :
    (handleDestroy ctx r env a rc).err =
      some (GoError.internal ("cannot destroy the instance: " ++ e)) ∧
    (handleDestroy ctx r env a rc).inst = none ∧
    (handleDestroy ctx r env a rc).events.countP isRegistryDelete = 0 ∧
    (handleDestroy ctx r env a rc).events.countP isOwnerDelete = 0 := by
  rw [handleDestroy_resolved_fail ctx r env a rc entity inst e hfe hferr hierr hinst hpd]
  refine ⟨rfl, rfl, ?_, ?_⟩
  · simp [List.countP_append, List.countP_cons, isRegistryDelete,
      guestEvents_countP_registryDelete]
  · simp [List.countP_append, List.countP_cons, isOwnerDelete,
      guestEvents_countP_ownerDelete]

/-- Witness for C3 at a concrete failing termination. -/
theorem C3_termination_error_aborts_witness :
    (handleDestroy (GoContext.caller 0) sampleReq sampleEnvCfg attDestroyFail 0).err =
      some (GoError.internal ("cannot destroy the instance: " ++ "cloud api error")) ∧
    (handleDestroy (GoContext.caller 0) sampleReq sampleEnvCfg attDestroyFail 0).inst = none ∧
    (handleDestroy (GoContext.caller 0) sampleReq sampleEnvCfg attDestroyFail 0).events.countP
        isRegistryDelete = 0 ∧
    (handleDestroy (GoContext.caller 0) sampleReq sampleEnvCfg attDestroyFail 0).events.countP
        isOwnerDelete = 0 :=
  C3_termination_error_aborts (GoContext.caller 0) sampleReq sampleEnvCfg attDestroyFail 0
    sampleEntity sampleInstance "cloud api error" rfl rfl rfl rfl rfl

/-! ### Bookkeeping retirement on success -/

/-- C6: when termination succeeds, the attempt succeeds with the destroyed
instance descriptor and its final two collaborator calls are, in order,
the Stage State Registry deletion and then the StageOwnershipRecord
deletion - for every outcome of the record deletion (a failure there is
logged only). -/
theorem C6_bookkeeping_on_success (ctx : GoContext) (r : VMCleanupRequest)
    (env : EnvConfig) (a : AttemptEnv) (rc : Nat) (entity : StageOwnerEntity)
    (inst : Instance)
    (hfe : a.findEntity = some entity) (hferr : a.findErr = none)
    (hierr : a.instErr = none) (hinst : a.inst = some inst)
    (hpd : a.poolDestroyErr = none) :
    (handleDestroy ctx r env a rc).err = none ∧
    (handleDestroy ctx r env a rc).inst = some inst ∧
    (handleDestroy ctx r env a rc).events.reverse.take 2 =
      [Event.ownerDeleteCalled ctx r.stageRuntimeID,
       Event.registryDelete r.stageRuntimeID] := by
  rw [handleDestroy_resolved_ok ctx r env a rc entity inst hfe hferr hierr hinst hpd]
  refine ⟨rfl, rfl, ?_⟩
  simp [List.reverse_append]

/-- Witness for C6 with a failing record deletion: the attempt still
succeeds and still ends with registry deletion then record deletion. -/
theorem C6_bookkeeping_on_success_witness :
    (handleDestroy (GoContext.caller 0) sampleReq sampleEnvCfg attOwnerDelErr 0).err = none ∧
    (handleDestroy (GoContext.caller 0) sampleReq sampleEnvCfg attOwnerDelErr 0).inst =
      some sampleInstance ∧
    (handleDestroy (GoContext.caller 0) sampleReq sampleEnvCfg
        attOwnerDelErr 0).events.reverse.take 2 =
      [Event.ownerDeleteCalled (GoContext.caller 0) sampleReq.stageRuntimeID,
       Event.registryDelete sampleReq.stageRuntimeID] :=
  C6_bookkeeping_on_success (GoContext.caller 0) sampleReq sampleEnvCfg attOwnerDelErr 0
    sampleEntity sampleInstance rfl rfl rfl rfl rfl

/-- Every in-guest cleanup call recorded by the guest-cleanup block is
issued on `context.Background()`. -/
theorem guestEvents_clientDestroy_background (gc : ClientResult) (lk pid : String)
    (inst : Instance) (c : GoContext) (lg : Bool) (k p : String)
    (h : Event.clientDestroyCalled c lg k p ∈ guestEvents gc lk pid inst) :
    c = GoContext.background := by
  rcases gc with m | ⟨dr, de⟩
  · simp [guestEvents] at h
  · rcases dr with _ | ⟨os⟩
    · simp [guestEvents] at h
      exact h.1
    · rcases os with _ | st
      · simp [guestEvents] at h
        exact h.1
      · simp [guestEvents] at h
        exact h.1

/-! ### Context independence of the in-guest cleanup call -/

/-- C9: the in-guest cleanup call is issued on a fresh independent context
(`context.Background()`), never the caller's: the subtrace of client
destroy calls is identical for any two caller contexts (and retry counts),
and every recorded client destroy call carries the background context. -/
theorem C9_guest_cleanup_ctx_independent (ctx1 ctx2 : GoContext)
    (r : VMCleanupRequest) (env : EnvConfig) (a : AttemptEnv) (rc1 rc2 : Nat) :
    (handleDestroy ctx1 r env a rc1).events.filter isClientDestroy =
      (handleDestroy ctx2 r env a rc2).events.filter isClientDestroy ∧
    (∀ c lg k p, Event.clientDestroyCalled c lg k p ∈
        (handleDestroy ctx1 r env a rc1).events → c = GoContext.background) := by
  obtain ⟨fe, ferr, i0, ierr, gc, pd, od⟩ := a
  constructor
  · rcases fe with _ | entity <;> rcases ferr with _ | e <;> rcases ierr with _ | e2 <;>
      rcases i0 with _ | inst <;> rcases pd with _ | e3 <;>
      simp [handleDestroy, isClientDestroy, List.filter_append]
  · intro c lg k p hmem
    rcases fe with _ | entity
    · simp [handleDestroy] at hmem
    · rcases ferr with _ | e
      · rcases ierr with _ | e2
        · rcases i0 with _ | inst
          · simp [handleDestroy] at hmem
          · rcases pd with _ | e3 <;>
              [skip; skip] <;>
              · simp [handleDestroy, List.mem_append] at hmem
                exact guestEvents_clientDestroy_background gc r.logKey entity.poolName
                  inst c lg k p hmem
        · simp [handleDestroy] at hmem
      · simp [handleDestroy] at hmem

/-! ### Metrics observation -/

/-- C10: when a client is constructed and its destroy call returns a
response whose `OSStats` is present, the CPU and memory percentile metrics
are each observed exactly once, labeled by the resolved pool name and the
instance OS, architecture and provider - even when the destroy call also
returned an error alongside the response (the client error is universally
quantified here); when the response or its stats is nil, no metric is
observed. -/
theorem C10_metrics_observed (ctx : GoContext) (r : VMCleanupRequest)
    (env : EnvConfig) (a : AttemptEnv) (rc : Nat) (entity : StageOwnerEntity)
    (inst : Instance) (c : ClientBehavior)
    (hfe : a.findEntity = some entity) (hferr : a.findErr = none)
    (hierr : a.instErr = none) (hinst : a.inst = some inst)
    (hgc : a.getClient = ClientResult.ok c) :
    (∀ resp st, c.destroyResp = some resp → resp.osStats = some st →
      (handleDestroy ctx r env a rc).events.countP isObserveCPU = 1 ∧
      (handleDestroy ctx r env a rc).events.countP isObserveMem = 1 ∧
      Event.observeCPU entity.poolName inst.os inst.arch inst.provider
          st.maxCPUUsagePct ∈ (handleDestroy ctx r env a rc).events ∧
      Event.observeMem entity.poolName inst.os inst.arch inst.provider
          st.maxMemUsagePct ∈ (handleDestroy ctx r env a rc).events) ∧
    (c.destroyResp = none →
      (handleDestroy ctx r env a rc).events.countP isObserveCPU = 0 ∧
      (handleDestroy ctx r env a rc).events.countP isObserveMem = 0) ∧
    (∀ resp, c.destroyResp = some resp → resp.osStats = none →
      (handleDestroy ctx r env a rc).events.countP isObserveCPU = 0 ∧
      (handleDestroy ctx r env a rc).events.countP isObserveMem = 0) := by
  rcases hpd : a.poolDestroyErr with _ | e
  · rw [handleDestroy_resolved_ok ctx r env a rc entity inst hfe hferr hierr hinst hpd, hgc]
    refine ⟨fun resp st hresp hstats => ?_, fun hresp => ?_, fun resp hresp hstats => ?_⟩
    · simp [guestEvents, hresp, hstats, List.countP_append, List.countP_cons,
        isObserveCPU, isObserveMem]
    · simp [guestEvents, hresp, List.countP_append, List.countP_cons,
        isObserveCPU, isObserveMem]
    · simp [guestEvents, hresp, hstats, List.countP_append, List.countP_cons,
        isObserveCPU, isObserveMem]
  · rw [handleDestroy_resolved_fail ctx r env a rc entity inst e hfe hferr hierr hinst hpd, hgc]
    refine ⟨fun resp st hresp hstats => ?_, fun hresp => ?_, fun resp hresp hstats => ?_⟩
    · simp [guestEvents, hresp, hstats, List.countP_append, List.countP_cons,
        isObserveCPU, isObserveMem]
    · simp [guestEvents, hresp, List.countP_append, List.countP_cons,
        isObserveCPU, isObserveMem]
    · simp [guestEvents, hresp, hstats, List.countP_append, List.countP_cons,
        isObserveCPU, isObserveMem]

/-- Witness for C10: the happy-path client returns stats alongside no
error; both metrics are observed exactly once with the resolved labels. -/
theorem C10_metrics_observed_witness :
    (handleDestroy (GoContext.caller 0) sampleReq sampleEnvCfg attHappy 0).events.countP
        isObserveCPU = 1 ∧
    (handleDestroy (GoContext.caller 0) sampleReq sampleEnvCfg attHappy 0).events.countP
        isObserveMem = 1 ∧
    Event.observeCPU sampleEntity.poolName sampleInstance.os sampleInstance.arch
        sampleInstance.provider sampleStats.maxCPUUsagePct ∈
      (handleDestroy (GoContext.caller 0) sampleReq sampleEnvCfg attHappy 0).events ∧
    Event.observeMem sampleEntity.poolName sampleInstance.os sampleInstance.arch
        sampleInstance.provider sampleStats.maxMemUsagePct ∈
      (handleDestroy (GoContext.caller 0) sampleReq sampleEnvCfg attHappy 0).events :=
  (C10_metrics_observed (GoContext.caller 0) sampleReq sampleEnvCfg attHappy 0
    sampleEntity sampleInstance { destroyResp := some { osStats := some sampleStats },
                                  destroyErr := none }
    rfl rfl rfl rfl rfl).1 { osStats := some sampleStats } sampleStats rfl rfl

/-- Witness for C9: two distinct caller contexts produce the same client
destroy subtrace, and the recorded call on the happy path carries the
background context. -/
theorem C9_guest_cleanup_ctx_independent_witness :
    (handleDestroy (GoContext.caller 0) sampleReq sampleEnvCfg attHappy 0).events.filter
        isClientDestroy =
      (handleDestroy (GoContext.caller 1) sampleReq sampleEnvCfg attHappy 1).events.filter
        isClientDestroy ∧
    GoContext.background = GoContext.background :=
  ⟨(C9_guest_cleanup_ctx_independent (GoContext.caller 0) (GoContext.caller 1) sampleReq
      sampleEnvCfg attHappy 0 1).1,
   (C9_guest_cleanup_ctx_independent (GoContext.caller 0) (GoContext.caller 1) sampleReq
      sampleEnvCfg attHappy 0 1).2 GoContext.background false "log-key-1"
      (getLiteEngineLogsPath "linux") (by decide)⟩

/-! ### The retry driver loop -/

/-- One-step unfolding of the retry loop at positive fuel. -/
theorem handleDestroyLoop_succ (ctx : GoContext) (r : VMCleanupRequest)
    (env : EnvConfig) (w : DestroyWorld) (fuel cnt : Nat) :
    handleDestroyLoop ctx r env w (fuel + 1) cnt =
      match (handleDestroy ctx r env (w.envAt cnt) cnt).err with
      | none => some (none, [LoopEvent.attemptRun cnt
          (handleDestroy ctx r env (w.envAt cnt) cnt).events none])
      | some e =>
          match w.backoffAt cnt with
          | none => some (some e, [LoopEvent.attemptRun cnt
              (handleDestroy ctx r env (w.envAt cnt) cnt).events (some e)])
          | some d =>
              match handleDestroyLoop ctx r env w fuel (cnt + 1) with
              | none => none
              | some (resErr, rest) =>
                  some (resErr, LoopEvent.attemptRun cnt
                      (handleDestroy ctx r env (w.envAt cnt) cnt).events (some e) ::
                    LoopEvent.sleepWait d :: rest) := rfl

/-- If every attempt from `cnt` through `cnt + k` fails and the backoff
policy first signals stop at `cnt + k`, the loop returns the error of the
LAST attempt, `cnt + k`. -/
theorem handleDestroyLoop_all_fail (ctx : GoContext) (r : VMCleanupRequest)
    (env : EnvConfig) (w : DestroyWorld) :
    ∀ (k m cnt : Nat),
      (∀ i, i ≤ k → (handleDestroy ctx r env (w.envAt (cnt + i)) (cnt + i)).err ≠ none) →
      (∀ i, i < k → w.backoffAt (cnt + i) ≠ none) →
      w.backoffAt (cnt + k) = none →
      (handleDestroyLoop ctx r env w (m + k + 1) cnt).map Prod.fst =
        some (handleDestroy ctx r env (w.envAt (cnt + k)) (cnt + k)).err := by
  intro k
  induction k with
  | zero =>
      intro m cnt hfail hbo hstop
      have hstop0 : w.backoffAt cnt = none := by simpa using hstop
      have hf : (handleDestroy ctx r env (w.envAt cnt) cnt).err ≠ none := by
        simpa using hfail 0 (Nat.zero_le 0)
      rcases hres : (handleDestroy ctx r env (w.envAt cnt) cnt).err with _ | e
      · exact absurd hres hf
      · simp [handleDestroyLoop_succ, hres, hstop0, Nat.add_zero]
  | succ k ih =>
      intro m cnt hfail hbo hstop
      have hf : (handleDestroy ctx r env (w.envAt cnt) cnt).err ≠ none := by
        simpa using hfail 0 (Nat.zero_le (k + 1))
      have hb : w.backoffAt cnt ≠ none := by
        simpa using hbo 0 (Nat.succ_pos k)
      rcases hres : (handleDestroy ctx r env (w.envAt cnt) cnt).err with _ | e
      · exact absurd hres hf
      · rcases hdur : w.backoffAt cnt with _ | d
        · exact absurd hdur hb
        · have hrec := ih m (cnt + 1)
            (fun i hi => by
              have := hfail (i + 1) (Nat.succ_le_succ hi)
              have hidx : cnt + (i + 1) = cnt + 1 + i := by omega
              rw [hidx] at this
              exact this)
            (fun i hi => by
              have := hbo (i + 1) (Nat.succ_lt_succ hi)
              have hidx : cnt + (i + 1) = cnt + 1 + i := by omega
              rw [hidx] at this
              exact this)
            (by
              have hidx : cnt + (k + 1) = cnt + 1 + k := by omega
              rw [hidx] at hstop
              exact hstop)
          have hidx2 : cnt + 1 + k = cnt + (k + 1) := by omega
          rw [hidx2] at hrec
          rcases hloop : handleDestroyLoop ctx r env w (m + k + 1) (cnt + 1) with
            _ | ⟨resErr, rest⟩
          · rw [hloop] at hrec
            exact absurd hrec (by simp)
          · rw [hloop] at hrec
            simp at hrec
            rw [handleDestroyLoop_succ]
            have hfuel : m + (k + 1) = m + k + 1 := rfl
            simp only [hres, hdur, hfuel, hloop]
            simpa using hrec

/-- C4: when every attempt fails until the backoff policy first signals
stop at attempt `k`, `HandleDestroy` returns exactly the error of the
last attempt `k` (not any earlier one). -/
theorem C4_exhaustion_returns_last_error (fuelExtra : Nat) (ctx : GoContext)
    (r : VMCleanupRequest) (env : EnvConfig) (w : DestroyWorld) (k : Nat)
    (hne : r.stageRuntimeID ≠ "")
    (hfail : ∀ i, i ≤ k → (handleDestroy ctx r env (w.envAt i) i).err ≠ none)
    (hbo : ∀ i, i < k → w.backoffAt i ≠ none)
    (hstop : w.backoffAt k = none) :
    (HandleDestroy (fuelExtra + k + 1) ctx r env w).map Prod.fst =
      some (handleDestroy ctx r env (w.envAt k) k).err := by
  unfold HandleDestroy
  rw [if_neg hne]
  have := handleDestroyLoop_all_fail ctx r env w k fuelExtra 0
    (fun i hi => by simpa using hfail i hi)
    (fun i hi => by simpa using hbo i hi)
    (by simpa using hstop)
  simpa using this

/-- If the attempts before `cnt + k` all fail with the backoff policy
still going, and attempt `cnt + k` succeeds, the loop returns nil with a
trace of exactly `k + 1` attempts and `k` sleeps. -/
theorem handleDestroyLoop_first_success (ctx : GoContext) (r : VMCleanupRequest)
    (env : EnvConfig) (w : DestroyWorld) :
    ∀ (k m cnt : Nat),
      (∀ i, i < k → (handleDestroy ctx r env (w.envAt (cnt + i)) (cnt + i)).err ≠ none) →
      (∀ i, i < k → w.backoffAt (cnt + i) ≠ none) →
      (handleDestroy ctx r env (w.envAt (cnt + k)) (cnt + k)).err = none →
      ∃ t, handleDestroyLoop ctx r env w (m + k + 1) cnt = some (none, t) ∧
        t.countP isAttemptRun = k + 1 ∧ t.countP isSleepWait = k := by
  intro k
  induction k with
  | zero =>
      intro m cnt hfail hbo hsucc
      have hs : (handleDestroy ctx r env (w.envAt cnt) cnt).err = none := by
        simpa using hsucc
      refine ⟨[LoopEvent.attemptRun cnt
        (handleDestroy ctx r env (w.envAt cnt) cnt).events none], ?_, by rfl, by rfl⟩
      simp only [handleDestroyLoop_succ, hs]
  | succ k ih =>
      intro m cnt hfail hbo hsucc
      have hf : (handleDestroy ctx r env (w.envAt cnt) cnt).err ≠ none := by
        simpa using hfail 0 (Nat.succ_pos k)
      have hb : w.backoffAt cnt ≠ none := by
        simpa using hbo 0 (Nat.succ_pos k)
      rcases hres : (handleDestroy ctx r env (w.envAt cnt) cnt).err with _ | e
      · exact absurd hres hf
      · rcases hdur : w.backoffAt cnt with _ | d
        · exact absurd hdur hb
        · obtain ⟨t, hloop, hatt, hslp⟩ := ih m (cnt + 1)
            (fun i hi => by
              have := hfail (i + 1) (Nat.succ_lt_succ hi)
              have hidx : cnt + (i + 1) = cnt + 1 + i := by omega
              rw [hidx] at this
              exact this)
            (fun i hi => by
              have := hbo (i + 1) (Nat.succ_lt_succ hi)
              have hidx : cnt + (i + 1) = cnt + 1 + i := by omega
              rw [hidx] at this
              exact this)
            (by
              have hidx : cnt + 1 + k = cnt + (k + 1) := by omega
              rw [hidx]
              exact hsucc)
          refine ⟨LoopEvent.attemptRun cnt
              (handleDestroy ctx r env (w.envAt cnt) cnt).events (some e) ::
            LoopEvent.sleepWait d :: t, ?_, ?_, ?_⟩
          · rw [handleDestroyLoop_succ]
            have hfuel : m + (k + 1) = m + k + 1 := rfl
            simp only [hres, hdur, hfuel, hloop]
          · simp [List.countP_cons, isAttemptRun, isSleepWait, hatt]
          · simp [List.countP_cons, isAttemptRun, isSleepWait, hslp]

/-- C8: as soon as one attempt succeeds (attempt `k`, after `k` failing
attempts with the backoff policy still going), `HandleDestroy` returns
nil with a trace of exactly `k + 1` coordinator calls and `k` backoff
waits: nothing runs after the first success. -/
theorem C8_first_success_returns_nil (fuelExtra : Nat) (ctx : GoContext)
    (r : VMCleanupRequest) (env : EnvConfig) (w : DestroyWorld) (k : Nat)
    (hne : r.stageRuntimeID ≠ "")
    (hfail : ∀ i, i < k → (handleDestroy ctx r env (w.envAt i) i).err ≠ none)
    (hbo : ∀ i, i < k → w.backoffAt i ≠ none)
    (hsucc : (handleDestroy ctx r env (w.envAt k) k).err = none) :
    ∃ t, HandleDestroy (fuelExtra + k + 1) ctx r env w = some (none, t) ∧
      t.countP isAttemptRun = k + 1 ∧ t.countP isSleepWait = k := by
  unfold HandleDestroy
  rw [if_neg hne]
  exact handleDestroyLoop_first_success ctx r env w k fuelExtra 0
    (fun i hi => by simpa using hfail i hi)
    (fun i hi => by simpa using hbo i hi)
    (by simpa using hsucc)

/-- Attempt environment in which the stage-owner store Find errors. -/
def attFindErr : AttemptEnv :=
  { attFindNilNil with findErr := some "db unavailable" }

/-- World in which every attempt fails on the ownership lookup and the
backoff policy yields two waits, then stops at the third call. -/
def worldAlwaysFail : DestroyWorld :=
  { envAt := fun _ => attFindErr,
    backoffAt := fun n => if n < 2 then some 1 else none }

/-- World in which the first two attempts fail on the ownership lookup
and the third resolves and succeeds; the backoff policy never stops. -/
def worldThenSuccess : DestroyWorld :=
  { envAt := fun n => if n < 2 then attFindErr else attHappy,
    backoffAt := fun _ => some 1 }

/-- Witness for C4: three failing attempts with the backoff stopping at
the third; the overall result is the third attempt's error. -/
theorem C4_exhaustion_returns_last_error_witness :
    (HandleDestroy 3 (GoContext.caller 0) sampleReq sampleEnvCfg worldAlwaysFail).map
        Prod.fst =
      some (handleDestroy (GoContext.caller 0) sampleReq sampleEnvCfg attFindErr 2).err :=
  C4_exhaustion_returns_last_error 0 (GoContext.caller 0) sampleReq sampleEnvCfg
    worldAlwaysFail 2 (by decide) (by decide) (by decide) (by decide)

/-- Witness for C8: two failing attempts then a success; the overall call
returns nil with exactly three coordinator calls and two waits. -/
theorem C8_first_success_returns_nil_witness :
    ∃ t, HandleDestroy 3 (GoContext.caller 0) sampleReq sampleEnvCfg worldThenSuccess =
        some (none, t) ∧
      t.countP isAttemptRun = 3 ∧ t.countP isSleepWait = 2 :=
  C8_first_success_returns_nil 0 (GoContext.caller 0) sampleReq sampleEnvCfg
    worldThenSuccess 2 (by decide) (by decide) (by decide) (by decide)

end DestroyGo
